import Mathlib

/-!
# Kelp market-making bot: level provider and control loop

A shallow embedding of

* `alfonso/strategy/level/autonomousLevelProvider.go` (the price/amount curve),
* `trader/bot.go` (the tick of the control loop),

together with the properties stated about them.

Go `float64` values are embedded as exact rationals `ℚ`, so the properties of
the level provider are properties over exact arithmetic: rounding is not
modelled.  Division in `ℚ` is total with `x / 0 = 0`, whereas Go yields `±Inf`
or `NaN`; every theorem below whose meaning depends on a quotient either
carries hypotheses that make the denominator non-zero or holds whatever value
the quotient takes.

The factory `MakeAutonomousStrategy` of `alfonso/strategy/autonomous.go` is not
embedded: it passes the `int8` field `MAX_LEVELS` where
`MakeAutonomousLevelProvider` takes a `float64`, which is not a well-typed call.
-/

namespace Kelp

/-! ## Level provider -/

/-- Level is the Go struct `Level` with its two fields. -/
structure Level where
  targetPrice : ℚ
  targetAmount : ℚ
deriving DecidableEq, Repr

/-- The Go struct `autonomousLevelProvider`. -/
structure autonomousLevelProvider where
  spread : ℚ
  plateauThresholdPercentage : ℚ
  useMaxQuoteInTargetAmountCalc : Bool
  amountSpread : ℚ
deriving DecidableEq, Repr

/-- The factory `MakeAutonomousLevelProvider`; `log.Fatal` is the `error` result. -/
def MakeAutonomousLevelProvider (spread : ℚ) (plateauThresholdPercentage : ℚ)
    (useMaxQuoteInTargetAmountCalc : Bool) (amountSpread : ℚ) :
    Except String autonomousLevelProvider :=
  if amountSpread ≥ 1 ∨ amountSpread ≤ 0 then
    .error "amountSpread needs to be between 0 and 1 (exclusive): "
  else
    .ok { spread := spread
          plateauThresholdPercentage := plateauThresholdPercentage
          useMaxQuoteInTargetAmountCalc := useMaxQuoteInTargetAmountCalc
          amountSpread := amountSpread }

/-- Which arm of the three-way `if` in `GetLevels` assigns `centerPrice`. -/
inductive CenterBranch where
  | plateauCeiling
  | plateauFloor
  | rawQuotient
deriving DecidableEq, Repr

/-- The conditions of the `if / else if / else` of `GetLevels`, in source order. -/
def autonomousLevelProvider.centerBranch (p : autonomousLevelProvider)
    (maxAssetBase maxAssetQuote : ℚ) : CenterBranch :=
  let sum := maxAssetQuote + maxAssetBase
  if maxAssetQuote / sum ≥ p.plateauThresholdPercentage then .plateauCeiling
  else if maxAssetBase / sum ≥ p.plateauThresholdPercentage then .plateauFloor
  else .rawQuotient

/-- The value assigned to the local `centerPrice` of `GetLevels`. -/
def autonomousLevelProvider.centerPrice (p : autonomousLevelProvider)
    (maxAssetBase maxAssetQuote : ℚ) : ℚ :=
  match p.centerBranch maxAssetBase maxAssetQuote with
  | .plateauCeiling => p.plateauThresholdPercentage / (1 - p.plateauThresholdPercentage)
  | .plateauFloor => (1 - p.plateauThresholdPercentage) / p.plateauThresholdPercentage
  | .rawQuotient => maxAssetQuote / maxAssetBase

/-- The method `GetLevels`: one level, and the `nil` error. -/
def autonomousLevelProvider.GetLevels (p : autonomousLevelProvider)
    (maxAssetBase maxAssetQuote : ℚ) : Except String (List Level) :=
  let centerPrice := p.centerPrice maxAssetBase maxAssetQuote
  -- price always adds the spread
  let targetPrice := centerPrice * (1 + p.spread / 2)
  let targetAmount := (2 * maxAssetBase * p.spread) / (4 + p.spread)
  let targetAmount :=
    if p.useMaxQuoteInTargetAmountCalc then (2 * maxAssetQuote * p.spread) / (4 + p.spread)
    else targetAmount
  let targetAmount := targetAmount * (1 - p.amountSpread)
  let level : Level := { targetPrice := targetPrice, targetAmount := targetAmount }
  .ok [level]

/-! ## Control loop -/

/-- The fields of `horizon.Asset` that `Bot.load` compares. -/
structure Asset where
  assetType : String
  code : String
  issuer : String
deriving DecidableEq, Repr

/-- One entry of `account.Balances` (`horizon.Balance`). -/
structure Balance where
  balance : String
  limit : String
  asset : Asset
deriving DecidableEq, Repr

/-- The part of `horizon.Account` read by `Bot.load`. -/
structure Account where
  balances : List Balance
deriving DecidableEq, Repr

/-- The constant `maxLumenTrust`. -/
def maxLumenTrust : ℚ := 100000000000

/-- The data fields of the Go struct `Bot`; its collaborators (`api`, `sdex`, `strat`) are
the fields of `Collaborators`. -/
structure Bot (Offer : Type) where
  assetBase : Asset
  assetQuote : Asset
  tradingAccount : String
  tickIntervalSeconds : Int
  maxAssetA : ℚ
  maxAssetB : ℚ
  trustAssetA : ℚ
  trustAssetB : ℚ
  buyingAOffers : List Offer
  sellingAOffers : List Offer

/-- The collaborators of the bot, none of which is defined in `trader/bot.go`: the Horizon
client, the `utils` helpers, the strategy bound to the bot and the SDEX plugin.  Each call
that may touch state outside the bot takes the outside state `σ` and returns the new one;
a Go `error` result is `some msg` (or `Except.error msg`). -/
structure Collaborators (σ Offer Op : Type) where
  LoadAccount : String → σ → Except String Account × σ
  LoadAllOffers : String → σ → Except String (List Offer) × σ
  FilterOffers : List Offer → Asset → Asset → List Offer × List Offer
  sortByPrice : List Offer → List Offer
  AmountStringAsFloat : String → ℚ
  Native : String
  PreUpdate : ℚ → ℚ → ℚ → ℚ → σ → Option String × σ
  PruneExistingOffers : List Offer → List Offer → σ → (List Op × List Offer × List Offer) × σ
  UpdateWithOps : List Offer → List Offer → σ → Except String (List Op) × σ
  PostUpdate : σ → Option String × σ
  DeleteAllOffers : List Offer → σ → List Op × σ
  SubmitOps : List Op → σ → Option String × σ
  ResetCachedXlmExposure : σ → σ

/-- The place in `bot.go` a `SubmitOps` call is made from. -/
inductive SubmitSite where
  | prune
  | update
  | teardown
deriving DecidableEq, Repr

/-- What a tick does that is visible outside the bot, in order.  `ok` is `true` when the
call returned a `nil` error. -/
inductive Event (Op : Type) where
  | loadAccount (ok : Bool)
  | loadAllOffers (ok : Bool)
  | preUpdate (maxAssetA maxAssetB trustAssetA trustAssetB : ℚ) (ok : Bool)
  | pruneExistingOffers
  | submitOps (site : SubmitSite) (ops : List Op) (ok : Bool)
  | resetCachedXlmExposure
  | updateWithOps (ops : List Op) (ok : Bool)
  | postUpdate (ok : Bool)
  | deleteAllOffers
deriving DecidableEq, Repr

/-- The result of a step of the bot: the bot, the outside state, the events emitted. -/
structure Outcome (σ Offer Op : Type) where
  bot : Bot Offer
  world : σ
  trace : List (Event Op)

/-- The body of the `for` loop of `Bot.load`, on the four locals `maxA maxB trustA trustB`. -/
def Bot.loadStep {σ Offer Op : Type} (c : Collaborators σ Offer Op) (b : Bot Offer)
    (acc : ℚ × ℚ × ℚ × ℚ) (balance : Balance) : ℚ × ℚ × ℚ × ℚ :=
  let (maxA, maxB, trustA, trustB) := acc
  if balance.asset = b.assetBase then
    let maxA := c.AmountStringAsFloat balance.balance
    let trustA :=
      if balance.asset.assetType = c.Native then maxLumenTrust
      else c.AmountStringAsFloat balance.limit
    (maxA, maxB, trustA, trustB)
  else if balance.asset = b.assetQuote then
    let maxB := c.AmountStringAsFloat balance.balance
    let trustB :=
      if balance.asset.assetType = c.Native then maxLumenTrust
      else c.AmountStringAsFloat balance.limit
    (maxA, maxB, trustA, trustB)
  else (maxA, maxB, trustA, trustB)

/-- The method `Bot.load`. -/
def Bot.load {σ Offer Op : Type} (c : Collaborators σ Offer Op) (b : Bot Offer) (w : σ) :
    Outcome σ Offer Op :=
  match c.LoadAccount b.tradingAccount w with
  | (.error _, w) => { bot := b, world := w, trace := [.loadAccount false] }
  | (.ok account, w) =>
    let (maxA, maxB, trustA, trustB) := account.balances.foldl (Bot.loadStep c b) (0, 0, 0, 0)
    { bot := { b with maxAssetA := maxA, maxAssetB := maxB,
                      trustAssetA := trustA, trustAssetB := trustB }
      world := w
      trace := [.loadAccount true] }

/-- The method `Bot.loadExistingOffers`. -/
def Bot.loadExistingOffers {σ Offer Op : Type} (c : Collaborators σ Offer Op) (b : Bot Offer)
    (w : σ) : Outcome σ Offer Op :=
  match c.LoadAllOffers b.tradingAccount w with
  | (.error _, w) => { bot := b, world := w, trace := [.loadAllOffers false] }
  | (.ok offers, w) =>
    let (sellingAOffers, buyingAOffers) := c.FilterOffers offers b.assetBase b.assetQuote
    { bot := { b with buyingAOffers := c.sortByPrice buyingAOffers,
                      sellingAOffers := c.sortByPrice sellingAOffers }
      world := w
      trace := [.loadAllOffers true] }

/-- The method `Bot.deleteAllOffers`. -/
def Bot.deleteAllOffers {σ Offer Op : Type} (c : Collaborators σ Offer Op) (b : Bot Offer)
    (w : σ) : Outcome σ Offer Op :=
  let (sellOps, w) := c.DeleteAllOffers b.sellingAOffers w
  let b := { b with sellingAOffers := [] }
  let (buyOps, w) := c.DeleteAllOffers b.buyingAOffers w
  let b := { b with buyingAOffers := [] }
  let dOps := sellOps ++ buyOps
  if dOps.length > 0 then
    let (e, w) := c.SubmitOps dOps w
    { bot := b, world := w, trace := [.deleteAllOffers, .submitOps .teardown dOps e.isNone] }
  else
    { bot := b, world := w, trace := [.deleteAllOffers] }

/-- The tail shared by every error arm of `Bot.update`: `b.deleteAllOffers()` then `return`,
after the events `tr` emitted so far. -/
def Bot.failTick {σ Offer Op : Type} (c : Collaborators σ Offer Op) (b : Bot Offer) (w : σ)
    (tr : List (Event Op)) : Outcome σ Offer Op :=
  let o := b.deleteAllOffers c w
  { o with trace := tr ++ o.trace }

/-- The guarded submission that `Bot.update` makes twice,
`if len(ops) > 0 { e = b.sdex.SubmitOps(ops) ... }`: the error (if any), the outside state
and the event emitted. -/
def submitIfAny {σ Offer Op : Type} (c : Collaborators σ Offer Op) (site : SubmitSite)
    (ops : List Op) (w : σ) : Option String × σ × List (Event Op) :=
  if ops.length > 0 then
    let (e, w) := c.SubmitOps ops w
    (e, w, [.submitOps site ops e.isNone])
  else (none, w, [])

/-- The method `Bot.update`: one tick. -/
def Bot.update {σ Offer Op : Type} (c : Collaborators σ Offer Op) (b : Bot Offer) (w : σ) :
    Outcome σ Offer Op :=
  let o := b.load c w
  let b := o.bot
  let tr := o.trace
  let o := b.loadExistingOffers c o.world
  let b := o.bot
  let tr := tr ++ o.trace
  -- strategy has a chance to set any state it needs
  match c.PreUpdate b.maxAssetA b.maxAssetB b.trustAssetA b.trustAssetB o.world with
  | (some _, w) =>
    b.failTick c w
      (tr ++ [.preUpdate b.maxAssetA b.maxAssetB b.trustAssetA b.trustAssetB false])
  | (none, w) =>
    let tr := tr ++ [.preUpdate b.maxAssetA b.maxAssetB b.trustAssetA b.trustAssetB true]
    -- delete excess offers
    match c.PruneExistingOffers b.buyingAOffers b.sellingAOffers w with
    | ((pruneOps, buying, selling), w) =>
      let b := { b with buyingAOffers := buying, sellingAOffers := selling }
      let tr := tr ++ [.pruneExistingOffers]
      match submitIfAny c .prune pruneOps w with
      | (some _, w, ev) => b.failTick c w (tr ++ ev)
      | (none, w, ev) =>
        let tr := tr ++ ev
        -- reset cached xlm exposure here so we only compute it once per update
        let w := c.ResetCachedXlmExposure w
        let tr := tr ++ [.resetCachedXlmExposure]
        match c.UpdateWithOps b.buyingAOffers b.sellingAOffers w with
        | (.error _, w) => b.failTick c w (tr ++ [.updateWithOps [] false])
        | (.ok ops, w) =>
          let tr := tr ++ [.updateWithOps ops true]
          match submitIfAny c .update ops w with
          | (some _, w, ev) => b.failTick c w (tr ++ ev)
          | (none, w, ev) =>
            let tr := tr ++ ev
            match c.PostUpdate w with
            | (some _, w) => b.failTick c w (tr ++ [.postUpdate false])
            | (none, w) => { bot := b, world := w, trace := tr ++ [.postUpdate true] }

/-! ### Reading a trace -/

/-- The worked example of the specification: base 1000, quote 500, spread 0.02,
threshold 0.9, amount spread 0.05. -/
def exampleProvider : autonomousLevelProvider :=
  { spread := 1 / 50, plateauThresholdPercentage := 9 / 10
    useMaxQuoteInTargetAmountCalc := false, amountSpread := 1 / 20 }

/-- A provider with the flag set, so that amounts are sized from the quote balance. -/
def quoteSizedProvider : autonomousLevelProvider :=
  { spread := 1 / 50, plateauThresholdPercentage := 9 / 10
    useMaxQuoteInTargetAmountCalc := true, amountSpread := 1 / 20 }

/-- A provider whose plateau threshold is below one half. -/
def lowThresholdProvider : autonomousLevelProvider :=
  { spread := 1 / 50, plateauThresholdPercentage := 3 / 10
    useMaxQuoteInTargetAmountCalc := false, amountSpread := 1 / 20 }

/-- A bot trading the native asset against a credit asset, with cached balances 1000 and
500 and no resting offers. -/
def exampleBot : Bot Nat :=
  { assetBase := { assetType := "native", code := "", issuer := "" }
    assetQuote := { assetType := "credit_alphanum4", code := "USD", issuer := "GISSUER" }
    tradingAccount := "GTRADER"
    tickIntervalSeconds := 300
    maxAssetA := 1000
    maxAssetB := 500
    trustAssetA := maxLumenTrust
    trustAssetB := 10000
    buyingAOffers := []
    sellingAOffers := [] }

/-- Which lifecycle steps of a scripted tick succeed. -/
structure Script where
  preUpdateOk : Bool
  pruneSubmitOk : Bool
  updateOk : Bool
  updateSubmitOk : Bool
  postUpdateOk : Bool

/-- Collaborators that follow a script: three offers rest on the book, the strategy prunes
with one operation and updates with one operation, and each step fails when the script
says so.  The submission of delete operations always succeeds. -/
def scriptedCollaborators (s : Script) : Collaborators Unit Nat String :=
  { LoadAccount := fun _ w => (.ok { balances := [] }, w)
    LoadAllOffers := fun _ w => (.ok [1, 2, 3], w)
    FilterOffers := fun offers _ _ =>
      (offers.filter (fun o => o % 2 == 1), offers.filter (fun o => o % 2 == 0))
    sortByPrice := fun offers => offers
    AmountStringAsFloat := fun _ => 0
    Native := "native"
    PreUpdate := fun _ _ _ _ w =>
      (if s.preUpdateOk then none else some "PreUpdate failed", w)
    PruneExistingOffers := fun buying selling w => ((["prune"], buying, selling.take 1), w)
    UpdateWithOps := fun _ _ w =>
      (if s.updateOk then .ok ["create"] else .error "UpdateWithOps failed", w)
    PostUpdate := fun w => (if s.postUpdateOk then none else some "PostUpdate failed", w)
    DeleteAllOffers := fun offers w => (offers.map (fun _ => "delete"), w)
    SubmitOps := fun ops w =>
      (if ops = ["prune"] then
          (if s.pruneSubmitOk then none else some "submission failed")
        else if ops = ["create"] then
          (if s.updateSubmitOk then none else some "submission failed")
        else none, w)
    ResetCachedXlmExposure := fun w => w }

/-! ## Properties of the level provider -/

/-- The method `GetLevels` always returns exactly one level, with the price and amount of the source. -/
theorem GetLevels_eq (p : autonomousLevelProvider) (maxAssetBase maxAssetQuote : ℚ) :
    p.GetLevels maxAssetBase maxAssetQuote =
      .ok [{ targetPrice := p.centerPrice maxAssetBase maxAssetQuote * (1 + p.spread / 2)
             targetAmount :=
               (if p.useMaxQuoteInTargetAmountCalc then
                  (2 * maxAssetQuote * p.spread) / (4 + p.spread)
                else (2 * maxAssetBase * p.spread) / (4 + p.spread)) * (1 - p.amountSpread) }] := by
  unfold autonomousLevelProvider.GetLevels
  cases p.useMaxQuoteInTargetAmountCalc <;> simp

/-- The center price on each of the three arms. -/
theorem centerPrice_cases (p : autonomousLevelProvider) (b q : ℚ) :
    (q / (q + b) ≥ p.plateauThresholdPercentage ∧
      p.centerPrice b q = p.plateauThresholdPercentage / (1 - p.plateauThresholdPercentage)) ∨
    (q / (q + b) < p.plateauThresholdPercentage ∧ b / (q + b) ≥ p.plateauThresholdPercentage ∧
      p.centerPrice b q = (1 - p.plateauThresholdPercentage) / p.plateauThresholdPercentage) ∨
    (q / (q + b) < p.plateauThresholdPercentage ∧ b / (q + b) < p.plateauThresholdPercentage ∧
      p.centerPrice b q = q / b) := by
  unfold autonomousLevelProvider.centerPrice autonomousLevelProvider.centerBranch
  by_cases h1 : q / (q + b) ≥ p.plateauThresholdPercentage
  · left; simp [h1]
  · by_cases h2 : b / (q + b) ≥ p.plateauThresholdPercentage
    · right; left; simp [h1, h2]; exact lt_of_not_ge h1
    · right; right; simp [h1, h2]; exact ⟨lt_of_not_ge h1, lt_of_not_ge h2⟩

/-- With positive balances and a threshold inside `(0,1)` the center price is positive. -/
theorem centerPrice_pos (p : autonomousLevelProvider) (b q : ℚ)
    (h0 : 0 < p.plateauThresholdPercentage) (h1 : p.plateauThresholdPercentage < 1)
    (hb : 0 < b) (hq : 0 < q) : 0 < p.centerPrice b q := by
  have h1p : 0 < 1 - p.plateauThresholdPercentage := by linarith
  rcases centerPrice_cases p b q with ⟨_, h⟩ | ⟨_, _, h⟩ | ⟨_, _, h⟩ <;> rw [h]
  · exact div_pos h0 h1p
  · exact div_pos h1p h0
  · exact div_pos hq hb

/-- C1: for spread > 0, a plateau threshold strictly between 0 and 1 and positive balances,
`GetLevels` returns one level whose `targetPrice` is strictly greater than the center price
chosen by the three-way plateau / raw-quotient branch. -/
theorem C1_targetPrice_gt_centerPrice (p : autonomousLevelProvider)
    (maxAssetBase maxAssetQuote : ℚ)
    (hs : 0 < p.spread)
    (h0 : 0 < p.plateauThresholdPercentage) (h1 : p.plateauThresholdPercentage < 1)
    (hb : 0 < maxAssetBase) (hq : 0 < maxAssetQuote) :
    ∃ l : Level, p.GetLevels maxAssetBase maxAssetQuote = .ok [l] ∧
      p.centerPrice maxAssetBase maxAssetQuote < l.targetPrice := by
  refine ⟨_, GetLevels_eq p maxAssetBase maxAssetQuote, ?_⟩
  have hc := centerPrice_pos p maxAssetBase maxAssetQuote h0 h1 hb hq
  show p.centerPrice maxAssetBase maxAssetQuote <
    p.centerPrice maxAssetBase maxAssetQuote * (1 + p.spread / 2)
  nlinarith [mul_pos hc hs]

/-- On the worked example the center price is 0.5, the price 0.505 and the amount 1900/201. -/
theorem exampleProvider_values :
    exampleProvider.centerPrice 1000 500 = 1 / 2 ∧
    exampleProvider.GetLevels 1000 500 =
      .ok [{ targetPrice := 101 / 200, targetAmount := 1900 / 201 }] := by
  have hc : exampleProvider.centerPrice 1000 500 = 1 / 2 := by
    unfold autonomousLevelProvider.centerPrice autonomousLevelProvider.centerBranch
      exampleProvider
    norm_num
  refine ⟨hc, ?_⟩
  rw [GetLevels_eq, hc]
  simp only [exampleProvider]
  norm_num

/-- C1 at the worked example. -/
theorem C1_targetPrice_gt_centerPrice_witness :
    ∃ l : Level, exampleProvider.GetLevels 1000 500 = .ok [l] ∧
      exampleProvider.centerPrice 1000 500 < l.targetPrice :=
  C1_targetPrice_gt_centerPrice exampleProvider 1000 500
    (by norm_num [exampleProvider]) (by norm_num [exampleProvider])
    (by norm_num [exampleProvider]) (by norm_num) (by norm_num)

/-- C2: plateau saturation.  Whenever the quote share reaches the threshold, the returned
`targetPrice` is the plateau ceiling `t / (1 - t)` times `1 + spread / 2`; any two balance
pairs in that region get the same price.  (The statement does not depend on the value a
share takes when the balances sum to zero.) -/
theorem C2_plateau_saturation (p : autonomousLevelProvider)
    (maxAssetBase maxAssetQuote maxAssetBase2 maxAssetQuote2 : ℚ)
    (h : maxAssetQuote / (maxAssetQuote + maxAssetBase) ≥ p.plateauThresholdPercentage)
    (h2 : maxAssetQuote2 / (maxAssetQuote2 + maxAssetBase2) ≥ p.plateauThresholdPercentage) :
    ∃ l l2 : Level, p.GetLevels maxAssetBase maxAssetQuote = .ok [l] ∧
      p.GetLevels maxAssetBase2 maxAssetQuote2 = .ok [l2] ∧
      l.targetPrice =
        p.plateauThresholdPercentage / (1 - p.plateauThresholdPercentage) *
          (1 + p.spread / 2) ∧
      l2.targetPrice = l.targetPrice := by
  have key : ∀ b q : ℚ, q / (q + b) ≥ p.plateauThresholdPercentage →
      p.centerPrice b q =
        p.plateauThresholdPercentage / (1 - p.plateauThresholdPercentage) := by
    intro b q hq
    unfold autonomousLevelProvider.centerPrice autonomousLevelProvider.centerBranch
    simp [hq]
  refine ⟨_, _, GetLevels_eq p maxAssetBase maxAssetQuote,
    GetLevels_eq p maxAssetBase2 maxAssetQuote2, ?_, ?_⟩
  · show p.centerPrice maxAssetBase maxAssetQuote * (1 + p.spread / 2) = _
    rw [key _ _ h]
  · show p.centerPrice maxAssetBase2 maxAssetQuote2 * (1 + p.spread / 2) =
      p.centerPrice maxAssetBase maxAssetQuote * (1 + p.spread / 2)
    rw [key _ _ h, key _ _ h2]

/-- C2 at quote shares 0.95 and 0.999 with threshold 0.9. -/
theorem C2_plateau_saturation_witness :
    ∃ l l2 : Level, exampleProvider.GetLevels 50 950 = .ok [l] ∧
      exampleProvider.GetLevels 1 999 = .ok [l2] ∧
      l.targetPrice =
        exampleProvider.plateauThresholdPercentage /
          (1 - exampleProvider.plateauThresholdPercentage) * (1 + exampleProvider.spread / 2) ∧
      l2.targetPrice = l.targetPrice :=
  C2_plateau_saturation exampleProvider 50 950 1 999
    (by norm_num [exampleProvider]) (by norm_num [exampleProvider])

/-- C3, as stated, fails: with a zero base balance the amount is not strictly below the
bound `2 * maxAssetBase * spread / (4 + spread)` (both are 0), and with the quote flag set
the amount is sized from the quote balance and exceeds the base-denominated bound. -/
theorem C3_counterexample :
    (MakeAutonomousLevelProvider (1 / 50) (9 / 10) false (1 / 20) = .ok exampleProvider ∧
      ∃ l : Level, exampleProvider.GetLevels 0 500 = .ok [l] ∧
        ¬ l.targetAmount < 2 * 0 * exampleProvider.spread / (4 + exampleProvider.spread)) ∧
    (MakeAutonomousLevelProvider (1 / 50) (9 / 10) true (1 / 20) = .ok quoteSizedProvider ∧
      ∃ l : Level, quoteSizedProvider.GetLevels 1 1000 = .ok [l] ∧
        ¬ l.targetAmount <
          2 * 1 * quoteSizedProvider.spread / (4 + quoteSizedProvider.spread)) := by
  refine ⟨⟨?_, _, GetLevels_eq _ _ _, ?_⟩, ⟨?_, _, GetLevels_eq _ _ _, ?_⟩⟩
  · simp [MakeAutonomousLevelProvider, exampleProvider]; norm_num
  · simp [exampleProvider]
  · simp [MakeAutonomousLevelProvider, quoteSizedProvider]; norm_num
  · simp only [quoteSizedProvider]; norm_num

/-- C3, amended: over exact (rational) arithmetic, for a configuration accepted by the
factory, the returned `targetAmount` is `(1 - amountSpread)` times the bound
`B = 2 * X * spread / (4 + spread)`, where `X` is `maxAssetBase` when the quote flag is
unset and `maxAssetQuote` when it is set; it is strictly below `B` exactly when `B` is
positive.  Rounding is not part of the statement: in `float64` a very small `amountSpread`
can make `1 - amountSpread` round to 1. -/
theorem C3_targetAmount_below_bound (spread plateauThresholdPercentage : ℚ)
    (useMaxQuoteInTargetAmountCalc : Bool) (amountSpread : ℚ) (p : autonomousLevelProvider)
    (maxAssetBase maxAssetQuote : ℚ)
    (hp : MakeAutonomousLevelProvider spread plateauThresholdPercentage
      useMaxQuoteInTargetAmountCalc amountSpread = .ok p) :
    ∃ l : Level, p.GetLevels maxAssetBase maxAssetQuote = .ok [l] ∧
      l.targetAmount =
        2 * (if useMaxQuoteInTargetAmountCalc then maxAssetQuote else maxAssetBase) * spread /
          (4 + spread) * (1 - amountSpread) ∧
      (l.targetAmount <
          2 * (if useMaxQuoteInTargetAmountCalc then maxAssetQuote else maxAssetBase) * spread /
            (4 + spread) ↔
        0 < 2 * (if useMaxQuoteInTargetAmountCalc then maxAssetQuote else maxAssetBase) * spread /
            (4 + spread)) := by
  unfold MakeAutonomousLevelProvider at hp
  split at hp
  · cases hp
  · rename_i hacc
    have ha : 0 < amountSpread := by
      by_contra hneg; exact hacc (Or.inr (not_lt.mp hneg))
    injection hp with hp
    subst hp
    refine ⟨_, GetLevels_eq _ _ _, ?_, ?_⟩
    · cases useMaxQuoteInTargetAmountCalc <;> simp
    · cases useMaxQuoteInTargetAmountCalc <;> simp only [Bool.false_eq_true, if_true, if_false]
      · constructor
        · intro h; nlinarith
        · intro h; nlinarith
      · constructor
        · intro h; nlinarith
        · intro h; nlinarith

/-- C3 (amended, exact arithmetic) at the worked example. -/
theorem C3_targetAmount_below_bound_witness :
    ∃ l : Level, exampleProvider.GetLevels 1000 500 = .ok [l] ∧
      l.targetAmount =
        2 * (if false then (500 : ℚ) else 1000) * (1 / 50) / (4 + 1 / 50) * (1 - 1 / 20) ∧
      (l.targetAmount < 2 * (if false then (500 : ℚ) else 1000) * (1 / 50) / (4 + 1 / 50) ↔
        0 < 2 * (if false then (500 : ℚ) else 1000) * (1 / 50) / (4 + 1 / 50)) :=
  C3_targetAmount_below_bound (1 / 50) (9 / 10) false (1 / 20) exampleProvider 1000 500
    (by simp [MakeAutonomousLevelProvider, exampleProvider]; norm_num)

/-- C6: the factory fails exactly when `amountSpread ≤ 0` or `amountSpread ≥ 1`; for an
`amountSpread` strictly inside `(0,1)` it returns the provider holding exactly the four
arguments, and `GetLevels` on that provider returns a level list and no error. -/
theorem C6_factory_validation (spread plateauThresholdPercentage : ℚ)
    (useMaxQuoteInTargetAmountCalc : Bool) (amountSpread : ℚ) :
    ((∃ msg, MakeAutonomousLevelProvider spread plateauThresholdPercentage
        useMaxQuoteInTargetAmountCalc amountSpread = .error msg) ↔
      (amountSpread ≤ 0 ∨ amountSpread ≥ 1)) ∧
    (0 < amountSpread ∧ amountSpread < 1 →
      MakeAutonomousLevelProvider spread plateauThresholdPercentage
          useMaxQuoteInTargetAmountCalc amountSpread =
        .ok { spread := spread
              plateauThresholdPercentage := plateauThresholdPercentage
              useMaxQuoteInTargetAmountCalc := useMaxQuoteInTargetAmountCalc
              amountSpread := amountSpread } ∧
      ∀ maxAssetBase maxAssetQuote : ℚ, ∃ l : Level,
        autonomousLevelProvider.GetLevels
          { spread := spread
            plateauThresholdPercentage := plateauThresholdPercentage
            useMaxQuoteInTargetAmountCalc := useMaxQuoteInTargetAmountCalc
            amountSpread := amountSpread } maxAssetBase maxAssetQuote = .ok [l]) := by
  constructor
  · unfold MakeAutonomousLevelProvider
    by_cases h : amountSpread ≥ 1 ∨ amountSpread ≤ 0
    · simp only [h, if_true]
      constructor
      · intro _; exact h.symm
      · intro _; exact ⟨_, rfl⟩
    · simp only [h, if_false]
      constructor
      · rintro ⟨msg, hmsg⟩; cases hmsg
      · intro h2; exact absurd h2.symm h
  · rintro ⟨h0, h1⟩
    constructor
    · unfold MakeAutonomousLevelProvider
      have h : ¬ (amountSpread ≥ 1 ∨ amountSpread ≤ 0) := by
        rintro (h | h) <;> linarith
      simp only [h, if_false]
    · intro b q
      exact ⟨_, GetLevels_eq _ b q⟩

/-- C6 at the worked example's configuration. -/
theorem C6_factory_validation_witness :
    MakeAutonomousLevelProvider (1 / 50) (9 / 10) false (1 / 20) =
        .ok { spread := 1 / 50, plateauThresholdPercentage := 9 / 10
              useMaxQuoteInTargetAmountCalc := false, amountSpread := 1 / 20 } ∧
      ∀ maxAssetBase maxAssetQuote : ℚ, ∃ l : Level,
        autonomousLevelProvider.GetLevels
          { spread := 1 / 50, plateauThresholdPercentage := 9 / 10
            useMaxQuoteInTargetAmountCalc := false, amountSpread := 1 / 20 }
          maxAssetBase maxAssetQuote = .ok [l] :=
  (C6_factory_validation (1 / 50) (9 / 10) false (1 / 20)).2 ⟨by norm_num, by norm_num⟩

/-- A share `x / (x + y)` reaches `t` exactly when `x` reaches `t * (x + y)`. -/
theorem share_ge_iff (x y t : ℚ) (h : 0 < x + y) : x / (x + y) ≥ t ↔ t * (x + y) ≤ x := by
  rw [ge_iff_le, le_div_iff₀ h]

/-- A share `x / (x + y)` is below `t` exactly when `x` is below `t * (x + y)`. -/
theorem share_lt_iff (x y t : ℚ) (h : 0 < x + y) : x / (x + y) < t ↔ x < t * (x + y) := by
  rw [div_lt_iff₀ h]

/-- C7, as stated, fails: with threshold 0.3 both sides sit on the plateau ceiling `3/7`
for balances 2 and 3, and the product of the two quoted prices is below 1. -/
theorem C7_counterexample :
    0 < lowThresholdProvider.spread ∧
    0 < lowThresholdProvider.plateauThresholdPercentage ∧
    lowThresholdProvider.plateauThresholdPercentage < 1 ∧
    ∃ l1 l2 : Level, lowThresholdProvider.GetLevels 2 3 = .ok [l1] ∧
      lowThresholdProvider.GetLevels 3 2 = .ok [l2] ∧
      ¬ l1.targetPrice * l2.targetPrice > 1 := by
  have h1 : lowThresholdProvider.centerPrice 2 3 = 3 / 7 := by
    unfold autonomousLevelProvider.centerPrice autonomousLevelProvider.centerBranch
      lowThresholdProvider
    norm_num
  have h2 : lowThresholdProvider.centerPrice 3 2 = 3 / 7 := by
    unfold autonomousLevelProvider.centerPrice autonomousLevelProvider.centerBranch
      lowThresholdProvider
    norm_num
  refine ⟨by norm_num [lowThresholdProvider], by norm_num [lowThresholdProvider],
    by norm_num [lowThresholdProvider], _, _, GetLevels_eq _ _ _, GetLevels_eq _ _ _, ?_⟩
  show ¬ lowThresholdProvider.centerPrice 2 3 * (1 + lowThresholdProvider.spread / 2) *
    (lowThresholdProvider.centerPrice 3 2 * (1 + lowThresholdProvider.spread / 2)) > 1
  rw [h1, h2]
  norm_num [lowThresholdProvider]

/-- The two center prices of swapped balance pairs multiply to 1 unless both shares reach
a threshold below one half. -/
theorem centerPrice_swap_mul (p : autonomousLevelProvider) (a b : ℚ)
    (h0 : 0 < p.plateauThresholdPercentage) (h1 : p.plateauThresholdPercentage < 1)
    (ha : 0 < a) (hb : 0 < b)
    (hside : 1 / 2 ≤ p.plateauThresholdPercentage ∨
      a / (a + b) < p.plateauThresholdPercentage ∨
      b / (a + b) < p.plateauThresholdPercentage) :
    p.centerPrice a b * p.centerPrice b a = 1 := by
  have hab : 0 < a + b := by linarith
  have hba : 0 < b + a := by linarith
  have h1p : (1 - p.plateauThresholdPercentage) ≠ 0 := by
    have : 0 < 1 - p.plateauThresholdPercentage := by linarith
    exact ne_of_gt this
  have hp0 : p.plateauThresholdPercentage ≠ 0 := ne_of_gt h0
  have hside2 : 1 / 2 ≤ p.plateauThresholdPercentage ∨
      a < p.plateauThresholdPercentage * (a + b) ∨
      b < p.plateauThresholdPercentage * (a + b) := by
    rcases hside with h | h | h
    · exact Or.inl h
    · exact Or.inr (Or.inl ((share_lt_iff a b _ hab).mp h))
    · right; right
      have := (share_lt_iff b a _ hba).mp (by rwa [add_comm b a])
      rwa [add_comm b a] at this
  rcases centerPrice_cases p a b with ⟨c1, e1⟩ | ⟨c1, c2, e1⟩ | ⟨c1, c2, e1⟩ <;>
    rcases centerPrice_cases p b a with ⟨d1, e2⟩ | ⟨d1, d2, e2⟩ | ⟨d1, d2, e2⟩ <;>
    rw [e1, e2]
  · -- ceiling and ceiling: the threshold must be one half
    have k1 := (share_ge_iff b a _ hba).mp c1
    have k2 := (share_ge_iff a b _ hab).mp d1
    have hhalf : p.plateauThresholdPercentage = 1 / 2 := by
      rcases hside2 with h | h | h
      · apply le_antisymm _ h
        nlinarith
      · linarith
      · linarith
    rw [hhalf]; norm_num
  · field_simp
  · exact absurd c1 (not_le.mpr (by rwa [add_comm a b] at d2))
  · field_simp
  · exact absurd c2 (not_le.mpr (by rwa [add_comm a b] at d1))
  · exact absurd c2 (not_le.mpr (by rwa [add_comm a b] at d1))
  · exact absurd d1 (not_le.mpr (by rwa [add_comm b a] at c2))
  · exact absurd d2 (not_le.mpr (by rwa [add_comm b a] at c1))
  · field_simp

/-- C7, amended: for spread > 0, a threshold strictly between 0 and 1 and positive balances
`a`, `b`, the price quoted by `GetLevels a b` times the price quoted by `GetLevels b a`
exceeds 1, provided the threshold is at least one half or one of the two shares is below
the threshold. -/
theorem C7_no_negative_spread (p : autonomousLevelProvider) (a b : ℚ)
    (hs : 0 < p.spread)
    (h0 : 0 < p.plateauThresholdPercentage) (h1 : p.plateauThresholdPercentage < 1)
    (ha : 0 < a) (hb : 0 < b)
    (hside : 1 / 2 ≤ p.plateauThresholdPercentage ∨
      a / (a + b) < p.plateauThresholdPercentage ∨
      b / (a + b) < p.plateauThresholdPercentage) :
    ∃ l1 l2 : Level, p.GetLevels a b = .ok [l1] ∧ p.GetLevels b a = .ok [l2] ∧
      l1.targetPrice * l2.targetPrice > 1 := by
  refine ⟨_, _, GetLevels_eq p a b, GetLevels_eq p b a, ?_⟩
  show p.centerPrice a b * (1 + p.spread / 2) * (p.centerPrice b a * (1 + p.spread / 2)) > 1
  have hm := centerPrice_swap_mul p a b h0 h1 ha hb hside
  have : p.centerPrice a b * (1 + p.spread / 2) * (p.centerPrice b a * (1 + p.spread / 2)) =
      (p.centerPrice a b * p.centerPrice b a) * ((1 + p.spread / 2) * (1 + p.spread / 2)) := by
    ring
  rw [this, hm]
  nlinarith

/-- C7 (amended) at the worked example, balances 1000 and 500. -/
theorem C7_no_negative_spread_witness :
    ∃ l1 l2 : Level, exampleProvider.GetLevels 1000 500 = .ok [l1] ∧
      exampleProvider.GetLevels 500 1000 = .ok [l2] ∧
      l1.targetPrice * l2.targetPrice > 1 :=
  C7_no_negative_spread exampleProvider 1000 500
    (by norm_num [exampleProvider]) (by norm_num [exampleProvider])
    (by norm_num [exampleProvider]) (by norm_num) (by norm_num)
    (Or.inl (by norm_num [exampleProvider]))

/-- C8: bounded price.  For a threshold `t` with `1/2 < t < 1` and positive balances the
center price lies between the floor `(1 - t) / t` and the ceiling `t / (1 - t)`, and for
a non-negative spread the returned `targetPrice` is at most `t / (1 - t) * (1 + spread/2)`. -/
theorem C8_bounded_price (p : autonomousLevelProvider) (maxAssetBase maxAssetQuote : ℚ)
    (hhalf : 1 / 2 < p.plateauThresholdPercentage) (h1 : p.plateauThresholdPercentage < 1)
    (hb : 0 < maxAssetBase) (hq : 0 < maxAssetQuote) (hs : 0 ≤ p.spread) :
    (1 - p.plateauThresholdPercentage) / p.plateauThresholdPercentage ≤
        p.centerPrice maxAssetBase maxAssetQuote ∧
    p.centerPrice maxAssetBase maxAssetQuote ≤
        p.plateauThresholdPercentage / (1 - p.plateauThresholdPercentage) ∧
    ∃ l : Level, p.GetLevels maxAssetBase maxAssetQuote = .ok [l] ∧
      l.targetPrice ≤
        p.plateauThresholdPercentage / (1 - p.plateauThresholdPercentage) *
          (1 + p.spread / 2) := by
  have h0 : 0 < p.plateauThresholdPercentage := by linarith
  have h1p : 0 < 1 - p.plateauThresholdPercentage := by linarith
  have hsum : 0 < maxAssetQuote + maxAssetBase := by linarith
  have hfc : (1 - p.plateauThresholdPercentage) / p.plateauThresholdPercentage ≤
      p.plateauThresholdPercentage / (1 - p.plateauThresholdPercentage) := by
    rw [div_le_div_iff₀ h0 h1p]
    nlinarith
  have hbounds : (1 - p.plateauThresholdPercentage) / p.plateauThresholdPercentage ≤
        p.centerPrice maxAssetBase maxAssetQuote ∧
      p.centerPrice maxAssetBase maxAssetQuote ≤
        p.plateauThresholdPercentage / (1 - p.plateauThresholdPercentage) := by
    rcases centerPrice_cases p maxAssetBase maxAssetQuote with
      ⟨_, e⟩ | ⟨_, _, e⟩ | ⟨c1, c2, e⟩ <;> rw [e]
    · exact ⟨hfc, le_refl _⟩
    · exact ⟨le_refl _, hfc⟩
    · have k1 := (share_lt_iff maxAssetQuote maxAssetBase _ hsum).mp c1
      have k2 : maxAssetBase < p.plateauThresholdPercentage * (maxAssetQuote + maxAssetBase) := by
        have hsum2 : 0 < maxAssetBase + maxAssetQuote := by linarith
        have := (share_lt_iff maxAssetBase maxAssetQuote _ hsum2).mp
          (by rwa [add_comm maxAssetBase maxAssetQuote])
        rwa [add_comm maxAssetBase maxAssetQuote] at this
      constructor
      · rw [div_le_div_iff₀ h0 hb]; nlinarith
      · rw [div_le_div_iff₀ hb h1p]; nlinarith
  refine ⟨hbounds.1, hbounds.2, _, GetLevels_eq p maxAssetBase maxAssetQuote, ?_⟩
  show p.centerPrice maxAssetBase maxAssetQuote * (1 + p.spread / 2) ≤ _
  have hfac : 0 ≤ 1 + p.spread / 2 := by linarith
  exact mul_le_mul_of_nonneg_right hbounds.2 hfac

/-- C8 with threshold 0.9, a base balance of 1 and a quote balance of 1000000. -/
theorem C8_bounded_price_witness :
    (1 - exampleProvider.plateauThresholdPercentage) /
        exampleProvider.plateauThresholdPercentage ≤
        exampleProvider.centerPrice 1 1000000 ∧
    exampleProvider.centerPrice 1 1000000 ≤
        exampleProvider.plateauThresholdPercentage /
          (1 - exampleProvider.plateauThresholdPercentage) ∧
    ∃ l : Level, exampleProvider.GetLevels 1 1000000 = .ok [l] ∧
      l.targetPrice ≤
        exampleProvider.plateauThresholdPercentage /
          (1 - exampleProvider.plateauThresholdPercentage) *
          (1 + exampleProvider.spread / 2) :=
  C8_bounded_price exampleProvider 1 1000000
    (by norm_num [exampleProvider]) (by norm_num [exampleProvider])
    (by norm_num) (by norm_num) (by norm_num [exampleProvider])

/-- C9: division safety of the raw-quotient arm.  For a threshold at most 1 and balances
with a positive sum (in particular non-negative balances that are not both zero), a zero
base balance selects the plateau-ceiling arm, so the arm dividing by `maxAssetBase` is only
reached with `maxAssetBase ≠ 0`. -/
theorem C9_raw_branch_division_safe (p : autonomousLevelProvider)
    (maxAssetBase maxAssetQuote : ℚ)
    (ht : p.plateauThresholdPercentage ≤ 1)
    (hsum : 0 < maxAssetBase + maxAssetQuote) :
    (maxAssetBase = 0 →
      p.centerBranch maxAssetBase maxAssetQuote = CenterBranch.plateauCeiling) ∧
    (p.centerBranch maxAssetBase maxAssetQuote = CenterBranch.rawQuotient →
      maxAssetBase ≠ 0) := by
  have hzero : maxAssetBase = 0 →
      p.centerBranch maxAssetBase maxAssetQuote = CenterBranch.plateauCeiling := by
    intro h
    subst h
    have hq0 : maxAssetQuote ≠ 0 := by
      intro h; rw [h] at hsum; simp at hsum
    unfold autonomousLevelProvider.centerBranch
    simp only [add_zero, div_self hq0]
    simp [ht]
  refine ⟨hzero, ?_⟩
  intro hraw h
  rw [hzero h] at hraw
  cases hraw

/-- C9 with a zero base balance and 500 of quote. -/
theorem C9_raw_branch_division_safe_witness :
    ((0 : ℚ) = 0 →
      exampleProvider.centerBranch 0 500 = CenterBranch.plateauCeiling) ∧
    (exampleProvider.centerBranch 0 500 = CenterBranch.rawQuotient → (0 : ℚ) ≠ 0) :=
  C9_raw_branch_division_safe exampleProvider 0 500
    (by norm_num [exampleProvider]) (by norm_num)

/-! ## Properties of the control loop -/

/-- The scripted ticks: with every step succeeding no teardown occurs; with a failure at
`PreUpdate`, at the prune submission, at `UpdateWithOps`, at the update submission or at
`PostUpdate`, the failed step is followed by the teardown and nothing else. -/
theorem update_scripted_traces :
    ((exampleBot.update (scriptedCollaborators ⟨true, true, true, true, true⟩) ()).trace =
      [.loadAccount true, .loadAllOffers true, .preUpdate 0 0 0 0 true, .pruneExistingOffers,
       .submitOps .prune ["prune"] true, .resetCachedXlmExposure,
       .updateWithOps ["create"] true, .submitOps .update ["create"] true,
       .postUpdate true]) ∧
    ((exampleBot.update (scriptedCollaborators ⟨false, true, true, true, true⟩) ()).trace =
      [.loadAccount true, .loadAllOffers true, .preUpdate 0 0 0 0 false, .deleteAllOffers,
       .submitOps .teardown ["delete", "delete", "delete"] true]) ∧
    ((exampleBot.update (scriptedCollaborators ⟨true, false, true, true, true⟩) ()).trace =
      [.loadAccount true, .loadAllOffers true, .preUpdate 0 0 0 0 true, .pruneExistingOffers,
       .submitOps .prune ["prune"] false, .deleteAllOffers,
       .submitOps .teardown ["delete", "delete"] true]) ∧
    ((exampleBot.update (scriptedCollaborators ⟨true, true, false, true, true⟩) ()).trace =
      [.loadAccount true, .loadAllOffers true, .preUpdate 0 0 0 0 true, .pruneExistingOffers,
       .submitOps .prune ["prune"] true, .resetCachedXlmExposure,
       .updateWithOps [] false, .deleteAllOffers,
       .submitOps .teardown ["delete", "delete"] true]) ∧
    ((exampleBot.update (scriptedCollaborators ⟨true, true, true, false, true⟩) ()).trace =
      [.loadAccount true, .loadAllOffers true, .preUpdate 0 0 0 0 true, .pruneExistingOffers,
       .submitOps .prune ["prune"] true, .resetCachedXlmExposure,
       .updateWithOps ["create"] true, .submitOps .update ["create"] false,
       .deleteAllOffers, .submitOps .teardown ["delete", "delete"] true]) ∧
    ((exampleBot.update (scriptedCollaborators ⟨true, true, true, true, false⟩) ()).trace =
      [.loadAccount true, .loadAllOffers true, .preUpdate 0 0 0 0 true, .pruneExistingOffers,
       .submitOps .prune ["prune"] true, .resetCachedXlmExposure,
       .updateWithOps ["create"] true, .submitOps .update ["create"] true,
       .postUpdate false, .deleteAllOffers,
       .submitOps .teardown ["delete", "delete"] true]) := by
  refine ⟨?_, ?_, ?_, ?_, ?_, ?_⟩ <;> rfl

end Kelp
